import Mathlib

/-!
Verification development for the 65go2 MOS 6502 CPU emulator core.

The definitions below shallowly embed the Go sources: the m65go2
package (the M6502 CPU with its registers, flag helpers, addressing
modes, instruction semantics, Execute/Run loop and the clock divider)
and the earlier _65go2 package variant (the Cpu type together with the
instruction table of instructions.go).  Machine integers are modelled
as Nat with the uint8/uint16 wrap written explicitly (mod 256 and
mod 65536) at every operation that can overflow.
-/

set_option maxRecDepth 4000

/-- Carry flag bit of the P register (bit 0). -/
def Status.C : Nat := 1

/-- Zero flag bit of the P register (bit 1). -/
def Status.Z : Nat := 2

/-- Interrupt disable flag bit of the P register (bit 2). -/
def Status.I : Nat := 4

/-- Decimal mode flag bit of the P register (bit 3). -/
def Status.D : Nat := 8

/-- Break command flag bit of the P register (bit 4). -/
def Status.B : Nat := 16

/-- Overflow flag bit of the P register (bit 6). -/
def Status.V : Nat := 64

/-- Negative flag bit of the P register (bit 7). -/
def Status.N : Nat := 128

/-- Register file of the 6502: A, X, Y, P and SP are 8-bit registers and
PC is 16-bit, all modelled as Nat. -/
structure Registers where
  A : Nat
  X : Nat
  Y : Nat
  P : Nat
  SP : Nat
  PC : Nat
deriving DecidableEq

/-- Registers.Reset of the m65go2 package: A, X and Y are zeroed, P is
set to just the I bit, SP becomes 0xfd and PC becomes 0xfffc.  The
method overwrites every field, so the previous contents are ignored. -/
def Registers.Reset (_ : Registers) : Registers :=
  { A := 0, X := 0, Y := 0, P := Status.I, SP := 0xfd, PC := 0xfffc }

/-- Modelled from the spec: the Memory collaborator of section 4.1 is an
interface (its implementations are not under src) exposing byte-granular
fetch and store over a 16-bit address space.  It is modelled as a total
map from addresses to bytes. -/
abbrev Mem : Type := Nat → Nat

/-- Memory.Fetch: read one byte; the address is masked to 16 bits and
the value to 8 bits, reflecting the uint16/uint8 types of the Go
interface. -/
def Memory.Fetch (m : Mem) (addr : Nat) : Nat :=
  m (addr % 65536) % 256

/-- Memory.Store: write one byte at a 16-bit address. -/
def Memory.Store (m : Mem) (addr value : Nat) : Mem :=
  fun a => if a = addr % 65536 then value % 256 else m a

/-- Modelled from the spec: SamePage compares only the high byte of two
16-bit addresses (glossary: a page cross means the high byte of an
address changes); the function itself is not under src, only its call
sites are. -/
def SamePage (a b : Nat) : Bool :=
  a >>> 8 == b >>> 8

/-- CPU state of the m65go2 M6502: the register file plus the memory
bus.  The clock is passed to Execute explicitly and the instruction
table is a parameter of Execute, mirroring the fields of the Go struct
that the embedded operations touch. -/
structure M6502 where
  reg : Registers
  mem : Mem

/-- The earlier _65go2 variant's Cpu holds the same state shape
(registers plus memory); its operations live in the Cpu namespace. -/
abbrev Cpu : Type := M6502

/-- M6502.setZFlag: Z is set iff the value is zero. -/
def M6502.setZFlag (value p : Nat) : Nat :=
  if value = 0 then p ||| Status.Z else p &&& 0xfd

/-- M6502.setNFlag: N is copied from bit 7 of the value. -/
def M6502.setNFlag (value p : Nat) : Nat :=
  (p &&& 0x7f) ||| (value &&& Status.N)

/-- M6502.setZNFlags: set Z then N from the value. -/
def M6502.setZNFlags (value p : Nat) : Nat :=
  M6502.setNFlag value (M6502.setZFlag value p)

/-- M6502.setCFlagAddition: C is copied from bit 8 of the 16-bit
value. -/
def M6502.setCFlagAddition (value p : Nat) : Nat :=
  (p &&& 0xfe) ||| ((value >>> 8) &&& Status.C)

/-- M6502.setVFlagAddition: V is set from the two-operand sign rule;
the uint16 complement of the Go source is written as xor with
0xffff. -/
def M6502.setVFlagAddition (term1 term2 result p : Nat) : Nat :=
  (p &&& 0xbf) ||| (((((term1 ^^^ term2) ^^^ 0xffff) &&& (term1 ^^^ result)) &&& Status.N) >>> 1)

/-- M6502.Bit: fetch M, set Z from M AND A, then or bits 7 and 6 of M
into P (the source only ors them in; it never clears N or V). -/
def M6502.Bit (address : Nat) (cpu : M6502) : M6502 :=
  let value := Memory.Fetch cpu.mem address
  let p := M6502.setZFlag (value &&& cpu.reg.A) cpu.reg.P
  { cpu with reg := { cpu.reg with P := p ||| (value &&& 0xc0) } }

/-- M6502.addition, the shared ADC core: binary mode when D is clear,
packed-BCD digit adjustment when D is set.  Sums are uint16 in the
source, hence the mod 65536. -/
def M6502.addition (value : Nat) (cpu : M6502) : M6502 :=
  let orig := cpu.reg.A
  if cpu.reg.P &&& Status.D = 0 then
    let sum := (orig + value + (cpu.reg.P &&& Status.C)) % 65536
    let p1 := M6502.setCFlagAddition sum cpu.reg.P
    let p2 := M6502.setVFlagAddition orig value sum p1
    { cpu with reg := { cpu.reg with A := sum % 256, P := M6502.setZNFlags (sum % 256) p2 } }
  else
    let low0 := (orig &&& 0xf) + (value &&& 0xf) + (cpu.reg.P &&& Status.C)
    let high0 := (orig &&& 0xf0) + (value &&& 0xf0)
    let low1 := if low0 ≥ 0xa then low0 - 0xa else low0
    let high1 := if low0 ≥ 0xa then high0 + 0x10 else high0
    let high2 := if high1 ≥ 0xa0 then high1 - 0xa0 else high1
    let result := (high2 ||| (low1 &&& 0xf)) % 65536
    let p1 := M6502.setCFlagAddition result cpu.reg.P
    let p2 := M6502.setVFlagAddition orig value result p1
    { cpu with reg := { cpu.reg with A := result % 256, P := M6502.setZNFlags (result % 256) p2 } }

/-- M6502.Adc: fetch the operand byte and run the shared addition. -/
def M6502.Adc (address : Nat) (cpu : M6502) : M6502 :=
  M6502.addition (Memory.Fetch cpu.mem address) cpu

/-- M6502.indirectAddress (JMP indirect): the address of the high
destination byte is formed with the low pointer byte incremented as a
uint8, reproducing the 6502 page-wrap bug.  Returns the effective
address and the state with PC advanced past the two operand bytes. -/
def M6502.indirectAddress (cpu : M6502) : Nat × M6502 :=
  let low := Memory.Fetch cpu.mem cpu.reg.PC
  let high := Memory.Fetch cpu.mem ((cpu.reg.PC + 1) % 65536)
  let cpu1 : M6502 := { cpu with reg := { cpu.reg with PC := (cpu.reg.PC + 2) % 65536 } }
  let aHigh := (high <<< 8) ||| ((low + 1) % 256)
  let aLow := (high <<< 8) ||| low
  let low2 := Memory.Fetch cpu1.mem aLow
  let high2 := Memory.Fetch cpu1.mem aHigh
  ((high2 <<< 8) ||| low2, cpu1)

/-- M6502.indexedIndirectAddress for (Indirect,X): the operand plus X
wraps as a uint8, but the high pointer byte is then fetched from
address + 1 computed as a uint16 (no zero-page wrap in the source). -/
def M6502.indexedIndirectAddress (cpu : M6502) : Nat × M6502 :=
  let address := (Memory.Fetch cpu.mem cpu.reg.PC + cpu.reg.X) % 256
  let cpu1 : M6502 := { cpu with reg := { cpu.reg with PC := (cpu.reg.PC + 1) % 65536 } }
  let low := Memory.Fetch cpu1.mem address
  let high := Memory.Fetch cpu1.mem ((address + 1) % 65536)
  ((high <<< 8) ||| low, cpu1)

/-- M6502.indirectIndexedAddress for (Indirect),Y: the high pointer
byte is fetched from address + 1 computed as a uint16 (no zero-page
wrap in the source).  The Go *uint16 cycle out-parameter is modelled by
additionally returning the page-cross penalty (0 or 1); call sites that
pass a non-nil pointer add it and those that pass nil ignore it. -/
def M6502.indirectIndexedAddress (cpu : M6502) : Nat × Nat × M6502 :=
  let address := Memory.Fetch cpu.mem cpu.reg.PC
  let cpu1 : M6502 := { cpu with reg := { cpu.reg with PC := (cpu.reg.PC + 1) % 65536 } }
  let low := Memory.Fetch cpu1.mem address
  let high := Memory.Fetch cpu1.mem ((address + 1) % 65536)
  let base := (high <<< 8) ||| low
  let result := (base + cpu1.reg.Y) % 65536
  (result, if SamePage base result then 0 else 1, cpu1)

/-- M6502.branch: when the condition holds, one extra cycle is charged,
plus another when the target is not on the same page as the current
(post-operand) PC, and PC is set to the target.  The Go *uint16 cycle
accumulator is modelled as a value threaded in and out. -/
def M6502.branch (address : Nat) (condition : Bool) (cycles : Nat) (cpu : M6502) : Nat × M6502 :=
  if condition then
    let cycles1 := cycles + 1
    let cycles2 := if SamePage cpu.reg.PC address then cycles1 else cycles1 + 1
    (cycles2, { cpu with reg := { cpu.reg with PC := address } })
  else
    (cycles, cpu)

/-- M6502.Bcc: branch when the carry flag is clear. -/
def M6502.Bcc (address cycles : Nat) (cpu : M6502) : Nat × M6502 :=
  M6502.branch address (cpu.reg.P &&& Status.C == 0) cycles cpu

/-- M6502.Bcs: branch when the carry flag is set. -/
def M6502.Bcs (address cycles : Nat) (cpu : M6502) : Nat × M6502 :=
  M6502.branch address (cpu.reg.P &&& Status.C != 0) cycles cpu

/-- M6502.Beq: branch when the zero flag is set. -/
def M6502.Beq (address cycles : Nat) (cpu : M6502) : Nat × M6502 :=
  M6502.branch address (cpu.reg.P &&& Status.Z != 0) cycles cpu

/-- M6502.Bmi: branch when the negative flag is set. -/
def M6502.Bmi (address cycles : Nat) (cpu : M6502) : Nat × M6502 :=
  M6502.branch address (cpu.reg.P &&& Status.N != 0) cycles cpu

/-- M6502.Bne: branch when the zero flag is clear. -/
def M6502.Bne (address cycles : Nat) (cpu : M6502) : Nat × M6502 :=
  M6502.branch address (cpu.reg.P &&& Status.Z == 0) cycles cpu

/-- M6502.Bpl: branch when the negative flag is clear. -/
def M6502.Bpl (address cycles : Nat) (cpu : M6502) : Nat × M6502 :=
  M6502.branch address (cpu.reg.P &&& Status.N == 0) cycles cpu

/-- M6502.Bvc: branch when the overflow flag is clear. -/
def M6502.Bvc (address cycles : Nat) (cpu : M6502) : Nat × M6502 :=
  M6502.branch address (cpu.reg.P &&& Status.V == 0) cycles cpu

/-- M6502.Bvs: branch when the overflow flag is set. -/
def M6502.Bvs (address cycles : Nat) (cpu : M6502) : Nat × M6502 :=
  M6502.branch address (cpu.reg.P &&& Status.V != 0) cycles cpu

/-- M6502.Reset: reset the registers and ask the memory bus to reset.
The bus reset is host-defined behind the Memory interface, so it is a
parameter here. -/
def M6502.Reset (memReset : Mem → Mem) (cpu : M6502) : M6502 :=
  { reg := Registers.Reset cpu.reg, mem := memReset cpu.mem }

/-- Observable bus and clock actions of one Execute call. -/
inductive MemEvent where
  | fetchE (addr : Nat)
  | storeE (addr value : Nat)
  | awaitE (tick : Nat)
deriving DecidableEq

/-- Executor shape of an m65go2 instruction: given the CPU state after
the opcode fetch and PC increment it returns the cycle count, the new
state and the bus/clock events it performed. -/
abbrev ExecFn : Type := M6502 → Nat × M6502 × List MemEvent

/-- M6502.Execute: sample the clock, fetch the opcode and look it up in
the table.  An unmapped opcode returns cycle count 0 together with the
offending opcode byte (the payload of BadOpCodeError) without touching
any state; otherwise PC is incremented past the opcode, the executor
runs and the clock is awaited at ticks + cycles. -/
def M6502.Execute (table : Nat → Option ExecFn) (ticks : Nat) (cpu : M6502) :
    (Nat × Option Nat) × M6502 × List MemEvent :=
  let opcode := Memory.Fetch cpu.mem cpu.reg.PC
  match table opcode with
  | none => ((0, some opcode), cpu, [MemEvent.fetchE cpu.reg.PC])
  | some ex =>
      let cpu1 : M6502 := { cpu with reg := { cpu.reg with PC := (cpu.reg.PC + 1) % 65536 } }
      let r := ex cpu1
      ((r.1, none), r.2.1, MemEvent.fetchE cpu.reg.PC :: (r.2.2 ++ [MemEvent.awaitE (ticks + r.1)]))

/-- M6502.Run: repeatedly Execute until an error is returned, threading
the clock sample forward by the consumed cycles.  Fuel bounds the loop;
none means the loop was still running when the fuel ran out. -/
def M6502.Run (table : Nat → Option ExecFn) : Nat → Nat → M6502 → Option (Nat × M6502)
  | 0, _, _ => none
  | fuel + 1, ticks, cpu =>
      match M6502.Execute table ticks cpu with
      | ((_, some e), cpu1, _) => some (e, cpu1)
      | ((cycles, none), cpu1, _) => M6502.Run table fuel (ticks + cycles) cpu1

/-- Every fetched value is one byte. -/
theorem Memory.Fetch_lt (m : Mem) (addr : Nat) : Memory.Fetch m addr < 256 :=
  Nat.mod_lt _ (by norm_num)

/-- Shifting right distributes over bitwise or. -/
theorem shiftRight_lor_distrib (a b : Nat) : ∀ n, (a ||| b) >>> n = (a >>> n) ||| (b >>> n) := by
  intro n
  induction n with
  | zero => rfl
  | succ k ih =>
      rw [Nat.shiftRight_succ, Nat.shiftRight_succ, Nat.shiftRight_succ, ih, Nat.or_div_two]

/-- The low byte of a byte pair assembled with shift and or. -/
theorem lor_byte_mod (a b : Nat) (hb : b < 256) : ((a <<< 8) ||| b) % 256 = b := by
  apply Nat.eq_of_testBit_eq
  intro i
  have h256 : (256 : Nat) = 2 ^ 8 := by norm_num
  rw [h256, Nat.testBit_mod_two_pow]
  simp only [Nat.testBit_lor, Nat.testBit_shiftLeft]
  by_cases h : i < 8
  · simp [h, Nat.not_le.mpr h]
  · have hbi : b.testBit i = false := by
      apply Nat.testBit_lt_two_pow
      calc b < 2 ^ 8 := by norm_num [hb]
        _ ≤ 2 ^ i := Nat.pow_le_pow_right (by norm_num) (Nat.not_lt.mp h)
    simp [h, hbi]

/-- The high part of a byte pair assembled with shift and or. -/
theorem lor_byte_div (a b : Nat) (hb : b < 256) : ((a <<< 8) ||| b) / 256 = a := by
  have h1 : ((a <<< 8) ||| b) / 256 = ((a <<< 8) ||| b) >>> 8 := by
    rw [Nat.shiftRight_eq_div_pow]
  rw [h1, shiftRight_lor_distrib]
  have h2 : a <<< 8 >>> 8 = a := by
    rw [Nat.shiftLeft_eq, Nat.shiftRight_eq_div_pow]
    exact Nat.mul_div_cancel a (by norm_num)
  have h3 : b >>> 8 = 0 := by
    rw [Nat.shiftRight_eq_div_pow]
    exact Nat.div_eq_of_lt (by norm_num [hb])
  rw [h2, h3, Nat.or_zero]

/-- Assembling a high byte and a low byte with shift and or is the same
as arithmetic on the two bytes. -/
theorem lor_byte_eq_add (a b : Nat) (hb : b < 256) : (a <<< 8) ||| b = a * 256 + b := by
  have h := Nat.div_add_mod ((a <<< 8) ||| b) 256
  rw [lor_byte_mod a b hb, lor_byte_div a b hb] at h
  omega

/-- Cpu.setZFlag of the _65go2 variant: Z is set iff the value is
zero. -/
def Cpu.setZFlag (value p : Nat) : Nat :=
  if value = 0 then p ||| Status.Z else p &&& 0xfd

/-- Cpu.setNFlag of the _65go2 variant: N is set iff bit 7 of the value
is set. -/
def Cpu.setNFlag (value p : Nat) : Nat :=
  if value &&& (1 <<< 7) ≠ 0 then p ||| Status.N else p &&& 0x7f

/-- Cpu.setZNFlags: set Z then N from the value. -/
def Cpu.setZNFlags (value p : Nat) : Nat :=
  Cpu.setNFlag value (Cpu.setZFlag value p)

/-- Cpu.immediateAddress: the operand is at PC; PC advances by one. -/
def Cpu.immediateAddress (cpu : Cpu) : Nat × Cpu :=
  (cpu.reg.PC, { cpu with reg := { cpu.reg with PC := (cpu.reg.PC + 1) % 65536 } })

/-- Cpu.zeroPageAddress: one operand byte, zero-extended. -/
def Cpu.zeroPageAddress (cpu : Cpu) : Nat × Cpu :=
  (Memory.Fetch cpu.mem cpu.reg.PC,
    { cpu with reg := { cpu.reg with PC := (cpu.reg.PC + 1) % 65536 } })

/-- Cpu.zeroPageIndexedAddress: operand plus index wraps as a uint8. -/
def Cpu.zeroPageIndexedAddress (index : Nat) (cpu : Cpu) : Nat × Cpu :=
  ((Memory.Fetch cpu.mem cpu.reg.PC + index) % 256,
    { cpu with reg := { cpu.reg with PC := (cpu.reg.PC + 1) % 65536 } })

/-- Cpu.absoluteAddress: two little-endian operand bytes. -/
def Cpu.absoluteAddress (cpu : Cpu) : Nat × Cpu :=
  let low := Memory.Fetch cpu.mem cpu.reg.PC
  let high := Memory.Fetch cpu.mem ((cpu.reg.PC + 1) % 65536)
  ((high <<< 8) ||| low,
    { cpu with reg := { cpu.reg with PC := (cpu.reg.PC + 2) % 65536 } })

/-- Cpu.absoluteIndexedAddress: absolute base plus index as a uint16;
the page-cross penalty is returned, mirroring the *uint16 cycle
out-parameter of the source (nil call sites ignore it). -/
def Cpu.absoluteIndexedAddress (index : Nat) (cpu : Cpu) : Nat × Nat × Cpu :=
  let low := Memory.Fetch cpu.mem cpu.reg.PC
  let high := Memory.Fetch cpu.mem ((cpu.reg.PC + 1) % 65536)
  let cpu1 : Cpu := { cpu with reg := { cpu.reg with PC := (cpu.reg.PC + 2) % 65536 } }
  let address := (high <<< 8) ||| low
  let result := (address + index) % 65536
  (result, if SamePage address result then 0 else 1, cpu1)

/-- Cpu.indexedIndirectAddress for (Indirect,X), as in the m65go2
variant: the operand plus X wraps as a uint8, the high pointer byte is
fetched from address + 1 as a uint16. -/
def Cpu.indexedIndirectAddress (cpu : Cpu) : Nat × Cpu :=
  let address := (Memory.Fetch cpu.mem cpu.reg.PC + cpu.reg.X) % 256
  let cpu1 : Cpu := { cpu with reg := { cpu.reg with PC := (cpu.reg.PC + 1) % 65536 } }
  let low := Memory.Fetch cpu1.mem address
  let high := Memory.Fetch cpu1.mem ((address + 1) % 65536)
  ((high <<< 8) ||| low, cpu1)

/-- Cpu.indirectIndexedAddress for (Indirect),Y, as in the m65go2
variant, with the page-cross penalty returned. -/
def Cpu.indirectIndexedAddress (cpu : Cpu) : Nat × Nat × Cpu :=
  let address := Memory.Fetch cpu.mem cpu.reg.PC
  let cpu1 : Cpu := { cpu with reg := { cpu.reg with PC := (cpu.reg.PC + 1) % 65536 } }
  let low := Memory.Fetch cpu1.mem address
  let high := Memory.Fetch cpu1.mem ((address + 1) % 65536)
  let base := (high <<< 8) ||| low
  let result := (base + cpu1.reg.Y) % 65536
  (result, if SamePage base result then 0 else 1, cpu1)

/-- Cpu.Lda: load a byte into the accumulator and set Z and N (the
shared load helper of the source is inlined into each load). -/
def Cpu.Lda (address : Nat) (cpu : Cpu) : Cpu :=
  let v := Memory.Fetch cpu.mem address
  { cpu with reg := { cpu.reg with A := v, P := Cpu.setZNFlags v cpu.reg.P } }

/-- Cpu.Ldx: load a byte into X and set Z and N. -/
def Cpu.Ldx (address : Nat) (cpu : Cpu) : Cpu :=
  let v := Memory.Fetch cpu.mem address
  { cpu with reg := { cpu.reg with X := v, P := Cpu.setZNFlags v cpu.reg.P } }

/-- Cpu.Ldy: load a byte into Y and set Z and N. -/
def Cpu.Ldy (address : Nat) (cpu : Cpu) : Cpu :=
  let v := Memory.Fetch cpu.mem address
  { cpu with reg := { cpu.reg with Y := v, P := Cpu.setZNFlags v cpu.reg.P } }

/-- Cpu.Sta: store the accumulator; no flags. -/
def Cpu.Sta (address : Nat) (cpu : Cpu) : Cpu :=
  { cpu with mem := Memory.Store cpu.mem address cpu.reg.A }

/-- Cpu.Stx: store X; no flags. -/
def Cpu.Stx (address : Nat) (cpu : Cpu) : Cpu :=
  { cpu with mem := Memory.Store cpu.mem address cpu.reg.X }

/-- Cpu.Sty: store Y; no flags. -/
def Cpu.Sty (address : Nat) (cpu : Cpu) : Cpu :=
  { cpu with mem := Memory.Store cpu.mem address cpu.reg.Y }

/-- Cpu.Tax: copy A into X and set Z and N (the shared transfer helper
of the source is inlined into each transfer). -/
def Cpu.Tax (cpu : Cpu) : Cpu :=
  { cpu with reg := { cpu.reg with X := cpu.reg.A, P := Cpu.setZNFlags cpu.reg.A cpu.reg.P } }

/-- Cpu.Tay: copy A into Y and set Z and N. -/
def Cpu.Tay (cpu : Cpu) : Cpu :=
  { cpu with reg := { cpu.reg with Y := cpu.reg.A, P := Cpu.setZNFlags cpu.reg.A cpu.reg.P } }

/-- Cpu.Txa: copy X into A and set Z and N. -/
def Cpu.Txa (cpu : Cpu) : Cpu :=
  { cpu with reg := { cpu.reg with A := cpu.reg.X, P := Cpu.setZNFlags cpu.reg.X cpu.reg.P } }

/-- Cpu.Tya: copy Y into A and set Z and N. -/
def Cpu.Tya (cpu : Cpu) : Cpu :=
  { cpu with reg := { cpu.reg with A := cpu.reg.Y, P := Cpu.setZNFlags cpu.reg.Y cpu.reg.P } }

/-- Cpu.Tsx: copy SP into X and set Z and N. -/
def Cpu.Tsx (cpu : Cpu) : Cpu :=
  { cpu with reg := { cpu.reg with X := cpu.reg.SP, P := Cpu.setZNFlags cpu.reg.SP cpu.reg.P } }

/-- Cpu.Txs: copy X into SP; the source routes this through the same
transfer helper, so Z and N are set here too. -/
def Cpu.Txs (cpu : Cpu) : Cpu :=
  { cpu with reg := { cpu.reg with SP := cpu.reg.X, P := Cpu.setZNFlags cpu.reg.X cpu.reg.P } }

/-- Cpu.push: store at 0x0100 or SP, then decrement SP as a uint8. -/
def Cpu.push (value : Nat) (cpu : Cpu) : Cpu :=
  { cpu with
    mem := Memory.Store cpu.mem (0x0100 ||| cpu.reg.SP) value,
    reg := { cpu.reg with SP := (cpu.reg.SP + 255) % 256 } }

/-- Cpu.pull: increment SP as a uint8, then fetch from 0x0100 or SP. -/
def Cpu.pull (cpu : Cpu) : Nat × Cpu :=
  let sp := (cpu.reg.SP + 1) % 256
  (Memory.Fetch cpu.mem (0x0100 ||| sp), { cpu with reg := { cpu.reg with SP := sp } })

/-- Cpu.Pha: push the accumulator. -/
def Cpu.Pha (cpu : Cpu) : Cpu :=
  Cpu.push cpu.reg.A cpu

/-- Cpu.Php of the _65go2 variant: push P as is (no forced break
bit). -/
def Cpu.Php (cpu : Cpu) : Cpu :=
  Cpu.push cpu.reg.P cpu

/-- Cpu.Pla: pull into the accumulator and set Z and N. -/
def Cpu.Pla (cpu : Cpu) : Cpu :=
  let r := Cpu.pull cpu
  { r.2 with reg := { r.2.reg with A := r.1, P := Cpu.setZNFlags r.1 r.2.reg.P } }

/-- Cpu.Plp: pull into P. -/
def Cpu.Plp (cpu : Cpu) : Cpu :=
  let r := Cpu.pull cpu
  { r.2 with reg := { r.2.reg with P := r.1 } }

/-- Cpu.And: bitwise and of A with a memory byte; set Z and N. -/
def Cpu.And (address : Nat) (cpu : Cpu) : Cpu :=
  let v := cpu.reg.A &&& Memory.Fetch cpu.mem address
  { cpu with reg := { cpu.reg with A := v, P := Cpu.setZNFlags v cpu.reg.P } }

/-- Cpu.Eor: bitwise exclusive or of A with a memory byte; set Z and
N. -/
def Cpu.Eor (address : Nat) (cpu : Cpu) : Cpu :=
  let v := cpu.reg.A ^^^ Memory.Fetch cpu.mem address
  { cpu with reg := { cpu.reg with A := v, P := Cpu.setZNFlags v cpu.reg.P } }

/-- Executor shape of a _65go2 table entry: state in, cycle count and
state out. -/
abbrev CpuExecFn : Type := Cpu → Nat × Cpu

/-- InitInstructions from instructions.go: the complete contents of the
instruction table built by NewInstructionTable, as an association list
from opcode to executor.  Each executor sets its base cycle count, runs
the addressing mode (adding the page-cross penalty at the call sites
that pass a non-nil cycle pointer) and the operation. -/
def InitInstructions : List (Nat × CpuExecFn) := [
  (0xa9, fun cpu => let r := Cpu.immediateAddress cpu; (2, Cpu.Lda r.1 r.2)),
  (0xa5, fun cpu => let r := Cpu.zeroPageAddress cpu; (3, Cpu.Lda r.1 r.2)),
  (0xb5, fun cpu => let r := Cpu.zeroPageIndexedAddress cpu.reg.X cpu; (4, Cpu.Lda r.1 r.2)),
  (0xad, fun cpu => let r := Cpu.absoluteAddress cpu; (4, Cpu.Lda r.1 r.2)),
  (0xbd, fun cpu => let r := Cpu.absoluteIndexedAddress cpu.reg.X cpu; (4 + r.2.1, Cpu.Lda r.1 r.2.2)),
  (0xb9, fun cpu => let r := Cpu.absoluteIndexedAddress cpu.reg.Y cpu; (4 + r.2.1, Cpu.Lda r.1 r.2.2)),
  (0xa1, fun cpu => let r := Cpu.indexedIndirectAddress cpu; (6, Cpu.Lda r.1 r.2)),
  (0xb1, fun cpu => let r := Cpu.indirectIndexedAddress cpu; (5 + r.2.1, Cpu.Lda r.1 r.2.2)),
  (0xa2, fun cpu => let r := Cpu.immediateAddress cpu; (2, Cpu.Ldx r.1 r.2)),
  (0xa6, fun cpu => let r := Cpu.zeroPageAddress cpu; (3, Cpu.Ldx r.1 r.2)),
  (0xb6, fun cpu => let r := Cpu.zeroPageIndexedAddress cpu.reg.Y cpu; (4, Cpu.Ldx r.1 r.2)),
  (0xae, fun cpu => let r := Cpu.absoluteAddress cpu; (4, Cpu.Ldx r.1 r.2)),
  (0xbe, fun cpu => let r := Cpu.absoluteIndexedAddress cpu.reg.Y cpu; (4 + r.2.1, Cpu.Ldx r.1 r.2.2)),
  (0xa0, fun cpu => let r := Cpu.immediateAddress cpu; (2, Cpu.Ldy r.1 r.2)),
  (0xa4, fun cpu => let r := Cpu.zeroPageAddress cpu; (3, Cpu.Ldy r.1 r.2)),
  (0xb4, fun cpu => let r := Cpu.zeroPageIndexedAddress cpu.reg.X cpu; (4, Cpu.Ldy r.1 r.2)),
  (0xac, fun cpu => let r := Cpu.absoluteAddress cpu; (4, Cpu.Ldy r.1 r.2)),
  (0xbc, fun cpu => let r := Cpu.absoluteIndexedAddress cpu.reg.X cpu; (4 + r.2.1, Cpu.Ldy r.1 r.2.2)),
  (0x85, fun cpu => let r := Cpu.zeroPageAddress cpu; (3, Cpu.Sta r.1 r.2)),
  (0x95, fun cpu => let r := Cpu.zeroPageIndexedAddress cpu.reg.X cpu; (4, Cpu.Sta r.1 r.2)),
  (0x8d, fun cpu => let r := Cpu.absoluteAddress cpu; (4, Cpu.Sta r.1 r.2)),
  (0x9d, fun cpu => let r := Cpu.absoluteIndexedAddress cpu.reg.X cpu; (5, Cpu.Sta r.1 r.2.2)),
  (0x99, fun cpu => let r := Cpu.absoluteIndexedAddress cpu.reg.Y cpu; (5, Cpu.Sta r.1 r.2.2)),
  (0x81, fun cpu => let r := Cpu.indexedIndirectAddress cpu; (6, Cpu.Sta r.1 r.2)),
  (0x91, fun cpu => let r := Cpu.indirectIndexedAddress cpu; (6, Cpu.Sta r.1 r.2.2)),
  (0x86, fun cpu => let r := Cpu.zeroPageAddress cpu; (3, Cpu.Stx r.1 r.2)),
  (0x96, fun cpu => let r := Cpu.zeroPageIndexedAddress cpu.reg.Y cpu; (4, Cpu.Stx r.1 r.2)),
  (0x8e, fun cpu => let r := Cpu.absoluteAddress cpu; (4, Cpu.Stx r.1 r.2)),
  (0x84, fun cpu => let r := Cpu.zeroPageAddress cpu; (3, Cpu.Sty r.1 r.2)),
  (0x94, fun cpu => let r := Cpu.zeroPageIndexedAddress cpu.reg.X cpu; (4, Cpu.Sty r.1 r.2)),
  (0x8c, fun cpu => let r := Cpu.absoluteAddress cpu; (4, Cpu.Sty r.1 r.2)),
  (0xaa, fun cpu => (2, Cpu.Tax cpu)),
  (0xa8, fun cpu => (2, Cpu.Tay cpu)),
  (0x8a, fun cpu => (2, Cpu.Txa cpu)),
  (0x98, fun cpu => (2, Cpu.Tya cpu)),
  (0xba, fun cpu => (2, Cpu.Tsx cpu)),
  (0x9a, fun cpu => (2, Cpu.Txs cpu)),
  (0x48, fun cpu => (3, Cpu.Pha cpu)),
  (0x08, fun cpu => (3, Cpu.Php cpu)),
  (0x68, fun cpu => (4, Cpu.Pla cpu)),
  (0x28, fun cpu => (4, Cpu.Plp cpu)),
  (0x29, fun cpu => let r := Cpu.immediateAddress cpu; (2, Cpu.And r.1 r.2)),
  (0x25, fun cpu => let r := Cpu.zeroPageAddress cpu; (3, Cpu.And r.1 r.2)),
  (0x35, fun cpu => let r := Cpu.zeroPageIndexedAddress cpu.reg.X cpu; (4, Cpu.And r.1 r.2)),
  (0x2d, fun cpu => let r := Cpu.absoluteAddress cpu; (4, Cpu.And r.1 r.2)),
  (0x3d, fun cpu => let r := Cpu.absoluteIndexedAddress cpu.reg.X cpu; (4 + r.2.1, Cpu.And r.1 r.2.2)),
  (0x39, fun cpu => let r := Cpu.absoluteIndexedAddress cpu.reg.Y cpu; (4 + r.2.1, Cpu.And r.1 r.2.2)),
  (0x21, fun cpu => let r := Cpu.indexedIndirectAddress cpu; (6, Cpu.And r.1 r.2)),
  (0x31, fun cpu => let r := Cpu.indirectIndexedAddress cpu; (5 + r.2.1, Cpu.And r.1 r.2.2)),
  (0x49, fun cpu => let r := Cpu.immediateAddress cpu; (2, Cpu.Eor r.1 r.2)),
  (0x45, fun cpu => let r := Cpu.zeroPageAddress cpu; (3, Cpu.Eor r.1 r.2)),
  (0x55, fun cpu => let r := Cpu.zeroPageIndexedAddress cpu.reg.X cpu; (4, Cpu.Eor r.1 r.2)),
  (0x4d, fun cpu => let r := Cpu.absoluteAddress cpu; (4, Cpu.Eor r.1 r.2)),
  (0x5d, fun cpu => let r := Cpu.absoluteIndexedAddress cpu.reg.X cpu; (4 + r.2.1, Cpu.Eor r.1 r.2.2)),
  (0x59, fun cpu => let r := Cpu.absoluteIndexedAddress cpu.reg.Y cpu; (4 + r.2.1, Cpu.Eor r.1 r.2.2)),
  (0x41, fun cpu => let r := Cpu.indexedIndirectAddress cpu; (6, Cpu.Eor r.1 r.2)),
  (0x51, fun cpu => let r := Cpu.indirectIndexedAddress cpu; (5 + r.2.1, Cpu.Eor r.1 r.2.2))]

/-- Opcodes that InitInstructions maps (in table order). -/
def instructionOpcodes : List Nat := [
  0xa9, 0xa5, 0xb5, 0xad, 0xbd, 0xb9, 0xa1, 0xb1,
  0xa2, 0xa6, 0xb6, 0xae, 0xbe,
  0xa0, 0xa4, 0xb4, 0xac, 0xbc,
  0x85, 0x95, 0x8d, 0x9d, 0x99, 0x81, 0x91,
  0x86, 0x96, 0x8e,
  0x84, 0x94, 0x8c,
  0xaa, 0xa8, 0x8a, 0x98, 0xba, 0x9a,
  0x48, 0x08, 0x68, 0x28,
  0x29, 0x25, 0x35, 0x2d, 0x3d, 0x39, 0x21, 0x31,
  0x49, 0x45, 0x55, 0x4d, 0x5d, 0x59, 0x41, 0x51]

/-- Modelled from the spec: the documented 6502 instruction set that
sections 3 and 6 say the opcode table must match exactly, as the
standard list of its 151 opcodes (ADC, AND, ASL, the eight branches,
BIT, BRK, the flag clears, CMP, CPX, CPY, DEC, DEX, DEY, EOR, INC,
INX, INY, JMP, JSR, LDA, LDX, LDY, LSR, NOP, ORA, the stack pushes and
pulls, ROL, ROR, RTI, RTS, SBC, the flag sets, STA, STX, STY and the
transfers). -/
def documentedOpcodes : List Nat := [
  0x69, 0x65, 0x75, 0x6d, 0x7d, 0x79, 0x61, 0x71,
  0x29, 0x25, 0x35, 0x2d, 0x3d, 0x39, 0x21, 0x31,
  0x0a, 0x06, 0x16, 0x0e, 0x1e,
  0x90, 0xb0, 0xf0, 0x30, 0xd0, 0x10, 0x50, 0x70,
  0x24, 0x2c,
  0x00,
  0x18, 0xd8, 0x58, 0xb8,
  0xc9, 0xc5, 0xd5, 0xcd, 0xdd, 0xd9, 0xc1, 0xd1,
  0xe0, 0xe4, 0xec,
  0xc0, 0xc4, 0xcc,
  0xc6, 0xd6, 0xce, 0xde,
  0xca, 0x88,
  0x49, 0x45, 0x55, 0x4d, 0x5d, 0x59, 0x41, 0x51,
  0xe6, 0xf6, 0xee, 0xfe,
  0xe8, 0xc8,
  0x4c, 0x6c,
  0x20,
  0xa9, 0xa5, 0xb5, 0xad, 0xbd, 0xb9, 0xa1, 0xb1,
  0xa2, 0xa6, 0xb6, 0xae, 0xbe,
  0xa0, 0xa4, 0xb4, 0xac, 0xbc,
  0x4a, 0x46, 0x56, 0x4e, 0x5e,
  0xea,
  0x09, 0x05, 0x15, 0x0d, 0x1d, 0x19, 0x01, 0x11,
  0x48, 0x08, 0x68, 0x28,
  0x2a, 0x26, 0x36, 0x2e, 0x3e,
  0x6a, 0x66, 0x76, 0x6e, 0x7e,
  0x40, 0x60,
  0xe9, 0xe5, 0xf5, 0xed, 0xfd, 0xf9, 0xe1, 0xf1,
  0x38, 0xf8, 0x78,
  0x85, 0x95, 0x8d, 0x9d, 0x99, 0x81, 0x91,
  0x86, 0x96, 0x8e,
  0x84, 0x94, 0x8c,
  0xaa, 0xa8, 0xba, 0x8a, 0x9a, 0x98]

/-- Clock from clock.go, modelled by its observable sequential
contract: a ticks counter.  Await blocks until the counter reaches the
target (the producer releases each waiter exactly when the counter
equals its target) and returns the counter it observes; when the target
has already passed it returns immediately with the current counter. -/
structure Clock where
  ticks : Nat
deriving DecidableEq

/-- Clock.Ticks: current value of the counter. -/
def Clock.Ticks (clock : Clock) : Nat :=
  clock.ticks

/-- Clock.Await: the counter observed at release, together with the
clock state at that moment. -/
def Clock.Await (clock : Clock) (tick : Nat) : Nat × Clock :=
  if clock.ticks < tick then (tick, { ticks := tick }) else (clock.ticks, clock)

/-- Divider from clock.go: wraps a master clock and divides its tick
frequency by divisor. -/
structure Divider where
  master : Clock
  divisor : Nat

/-- Divider.Ticks: the master ticks, integer-divided by the divisor. -/
def Divider.Ticks (clock : Divider) : Nat :=
  Clock.Ticks clock.master / clock.divisor

/-- Divider.Await: delegate to the master at tick times divisor and
divide the returned master tick count by the divisor. -/
def Divider.Await (clock : Divider) (tick : Nat) : Nat × Divider :=
  let r := Clock.Await clock.master (tick * clock.divisor)
  (r.1 / clock.divisor, { clock with master := r.2 })

/-- Statement of the branch contract in the words of the spec: an
untaken branch costs the base cycles; a taken branch costs base + 1
when the target is on the same 256-byte page as the post-operand PC
and base + 2 otherwise, and PC becomes the target.  Pages are compared
by high byte, written here as division by 256. -/
def branchSpec (taken : Bool) (address base : Nat) (cpu : M6502) : Nat × M6502 :=
  if taken then
    ((if address / 256 = cpu.reg.PC / 256 then base + 1 else base + 2),
      { cpu with reg := { cpu.reg with PC := address } })
  else
    (base, cpu)

/-- Memory used by the C1 counterexample: the reset vector holds the
little-endian word 0x1234. -/
def c1mem : Mem := fun a =>
  if a = 0xfffc then 0x34 else if a = 0xfffd then 0x12 else 0

/-- CPU state used by the C1 counterexample. -/
def c1cpu : M6502 :=
  { reg := { A := 1, X := 2, Y := 3, P := 0xff, SP := 0, PC := 0x8000 }, mem := c1mem }

/-- Claim C1 counterexample: with the reset vector holding 0x1234 (and a
bus whose reset leaves memory unchanged), the PC after M6502.Reset is
0xfffc, the address of the reset vector, not the word 0x1234 read from
it, so the claimed reset state does not hold. -/
theorem c1_reset_counterexample :
    Memory.Fetch (M6502.Reset id c1cpu).mem 0xfffc
        + 256 * Memory.Fetch (M6502.Reset id c1cpu).mem 0xfffd = 0x1234 ∧
    (M6502.Reset id c1cpu).reg.PC = 0xfffc ∧
    (M6502.Reset id c1cpu).reg.PC ≠ 0x1234 := by
  decide

/-- Claim C1 (amended): after M6502.Reset the registers satisfy A = 0,
X = 0, Y = 0, P has exactly the I flag set, SP = 0xfd and PC = 0xfffc,
the address of the reset vector; the vector word is not fetched.  The
memory bus is reset by its host-defined reset. -/
theorem c1_reset_amended (memReset : Mem → Mem) (cpu : M6502) :
    (M6502.Reset memReset cpu).reg
        = { A := 0, X := 0, Y := 0, P := Status.I, SP := 0xfd, PC := 0xfffc } ∧
    (M6502.Reset memReset cpu).mem = memReset cpu.mem :=
  ⟨rfl, rfl⟩

/-- CPU state used by the C2 counterexample: every memory byte holds the
unmapped opcode 0x02. -/
def c2cpu : M6502 :=
  { reg := { A := 0, X := 0, Y := 0, P := 0, SP := 0xfd, PC := 0x8000 }, mem := fun _ => 0x02 }

/-- Claim C2 counterexample: executing the unmapped opcode 0x02 from
PC = 0x8000 returns the BadOpcode error with zero cycles, but the PC at
return is still 0x8000 -- it has not been advanced past the opcode
byte to 0x8001 as the claim states. -/
theorem c2_badopcode_counterexample :
    (M6502.Execute (fun _ => none) 0 c2cpu).1 = (0, some 0x02) ∧
    (M6502.Execute (fun _ => none) 0 c2cpu).2.1.reg.PC = 0x8000 ∧
    (M6502.Execute (fun _ => none) 0 c2cpu).2.1.reg.PC ≠ 0x8001 := by
  decide

/-- Claim C2 (amended): whenever Execute fetches an opcode byte with no
entry in the instruction table, it returns the BadOpcode error together
with cycle count zero, and at the moment of return the PC is unchanged,
still pointing at the opcode byte; Run propagates this error and
stops. -/
theorem c2_badopcode_amended (table : Nat → Option ExecFn) (ticks : Nat) (cpu : M6502)
    (h : table (Memory.Fetch cpu.mem cpu.reg.PC) = none) :
    (M6502.Execute table ticks cpu).1 = (0, some (Memory.Fetch cpu.mem cpu.reg.PC)) ∧
    (M6502.Execute table ticks cpu).2.1.reg.PC = cpu.reg.PC ∧
    ∀ fuel, M6502.Run table (fuel + 1) ticks cpu
        = some (Memory.Fetch cpu.mem cpu.reg.PC, cpu) := by
  refine ⟨?_, ?_, fun fuel => ?_⟩ <;> simp [M6502.Execute, M6502.Run, h]

/-- CPU state used by the C2 witness. -/
def c2wcpu : M6502 :=
  { reg := { A := 5, X := 6, Y := 7, P := 1, SP := 0xf0, PC := 0x4000 }, mem := fun _ => 0x7f }

/-- Witness for claim C2: the amended theorem applied to the concrete
state c2wcpu with an empty table, the hypothesis discharged by rfl and
the Run conjunct instantiated at fuel 0. -/
theorem c2_badopcode_amended_witness :
    (M6502.Execute (fun _ => none) 9 c2wcpu).1 = (0, some (Memory.Fetch c2wcpu.mem c2wcpu.reg.PC)) ∧
    (M6502.Execute (fun _ => none) 9 c2wcpu).2.1.reg.PC = c2wcpu.reg.PC ∧
    M6502.Run (fun _ => none) 1 9 c2wcpu = some (Memory.Fetch c2wcpu.mem c2wcpu.reg.PC, c2wcpu) :=
  ⟨(c2_badopcode_amended (fun _ => none) 9 c2wcpu rfl).1,
   (c2_badopcode_amended (fun _ => none) 9 c2wcpu rfl).2.1,
   (c2_badopcode_amended (fun _ => none) 9 c2wcpu rfl).2.2 0⟩

/-- Claim C3 counterexample: 0x69 (ADC immediate) is a documented 6502
opcode -- the documented set has 151 members -- yet the table built by
InitInstructions has no entry for it, so the table does not cover the
documented instruction set. -/
theorem c3_table_counterexample :
    (List.lookup 0x69 InitInstructions).isSome = false ∧
    documentedOpcodes.contains 0x69 = true ∧
    documentedOpcodes.length = 151 := by
  refine ⟨?_, ?_, ?_⟩ <;> decide

/-- Claim C3 (amended): the instruction table built by the constructor
contains entries for exactly the 57 opcodes of instructionOpcodes (the
LDA, LDX, LDY, STA, STX, STY, transfer, push/pull, AND and EOR forms),
each of which is a documented 6502 opcode; every other opcode is
unmapped, so Execute fails to look it up and reports it as an error. -/
theorem c3_table_amended :
    (∀ op : Fin 256,
        (List.lookup op.val InitInstructions).isSome = instructionOpcodes.contains op.val) ∧
    instructionOpcodes.length = 57 ∧
    instructionOpcodes.Nodup ∧
    instructionOpcodes.all (fun op => documentedOpcodes.contains op) = true := by
  refine ⟨?_, ?_, ?_, ?_⟩ <;> decide

/-- CPU state used by the C4 theorem: N and V are set, A = 0, and every
memory byte is 0. -/
def c4cpu : M6502 :=
  { reg := { A := 0, X := 0, Y := 0, P := 0xc0, SP := 0xfd, PC := 0 }, mem := fun _ => 0 }

/-- Claim C4 at a failing input: BIT on a memory byte M = 0 with N and V
previously set leaves N and V set, because the source only ors bits 7
and 6 of M into P and never clears them; the claim (and the code's own
documentation) requires N and V to be copied from M, hence cleared
here.  A is unchanged. -/
theorem c4_bit_code_bug :
    Memory.Fetch c4cpu.mem 0x10 = 0 ∧
    (M6502.Bit 0x10 c4cpu).reg.P &&& Status.N = Status.N ∧
    (M6502.Bit 0x10 c4cpu).reg.P &&& Status.V = Status.V ∧
    (M6502.Bit 0x10 c4cpu).reg.A = 0 := by
  decide

/-- Memory used by the C5 theorem: the operand byte is the zero-page
pointer 0xff; zero-page address 0x00 holds 0x20 while address 0x0100
holds 0x30, so the two candidate base addresses differ. -/
def c5mem : Mem := fun a =>
  if a = 0x8000 then 0xff
  else if a = 0x00ff then 0x10
  else if a = 0x0000 then 0x20
  else if a = 0x0100 then 0x30
  else 0

/-- CPU state used by the C5 theorem. -/
def c5cpu : M6502 :=
  { reg := { A := 0, X := 0, Y := 0, P := 0, SP := 0xfd, PC := 0x8000 }, mem := c5mem }

/-- Claim C5 at a failing input: with zero-page pointer 0xff the claim
requires the base high byte to be fetched from (0xff + 1) mod 256 = 0,
giving base 0x2010; the source instead fetches it from the uint16
address 0x0100, giving 0x3010, in both (Indirect),Y and (Indirect,X):
the zero-page wrap of the high pointer fetch is missing. -/
theorem c5_zero_page_wrap_code_bug :
    (M6502.indirectIndexedAddress c5cpu).1 = 0x3010 ∧
    (M6502.indirectIndexedAddress c5cpu).1 ≠ 0x2010 ∧
    (M6502.indexedIndirectAddress c5cpu).1 = 0x3010 ∧
    (M6502.indexedIndirectAddress c5cpu).1 ≠ 0x2010 := by
  decide

/-- CPU state used by the C6 theorem: A holds BCD 50, D is set, C is
clear, and the operand byte is BCD 50. -/
def c6cpu : M6502 :=
  { reg := { A := 0x50, X := 0, Y := 0, P := Status.D, SP := 0xfd, PC := 0 }, mem := fun _ => 0x50 }

/-- Claim C6 at a failing input: decimal ADC of BCD 50 + 50 with carry
clear has decimal sum 100, so the claim requires C to be set (and A to
become 0x00); the source subtracts 0xa0 from the high-nibble sum and
only then copies bit 8 of the adjusted result into C, so C ends up
clear and the decimal carry is lost. -/
theorem c6_decimal_adc_code_bug :
    (M6502.Adc 0x1000 c6cpu).reg.A = 0 ∧
    (M6502.Adc 0x1000 c6cpu).reg.P &&& Status.C = 0 := by
  decide

/-- Claim C7: for every state, JMP indirect reads the destination low
byte from the pointer itself; the destination high byte comes from the
start of the pointer's own page (pointer divided into its page base)
when the pointer's low byte is 0xff, and from pointer + 1 otherwise;
PC is advanced past the two operand bytes. -/
theorem c7_indirect_jmp_page_wrap (cpu : M6502) :
    let low := Memory.Fetch cpu.mem cpu.reg.PC
    let high := Memory.Fetch cpu.mem ((cpu.reg.PC + 1) % 65536)
    let ptr := high * 256 + low
    (M6502.indirectAddress cpu).1 =
      Memory.Fetch cpu.mem (if ptr % 256 = 0xff then ptr / 256 * 256 else ptr + 1) * 256
        + Memory.Fetch cpu.mem ptr ∧
    (M6502.indirectAddress cpu).2.reg.PC = (cpu.reg.PC + 2) % 65536 := by
  intro low high ptr
  have hlow : low < 256 := Memory.Fetch_lt _ _
  have hptrdef : ptr = high * 256 + low := rfl
  have hptr : (high <<< 8) ||| low = ptr := by
    rw [lor_byte_eq_add high low hlow, hptrdef]
  constructor
  · show Memory.Fetch cpu.mem ((high <<< 8) ||| ((low + 1) % 256)) <<< 8
        ||| Memory.Fetch cpu.mem ((high <<< 8) ||| low) = _
    rw [lor_byte_eq_add _ _ (Memory.Fetch_lt _ _), hptr]
    by_cases hl : low = 255
    · have h1 : (low + 1) % 256 = 0 := by omega
      have h2 : ptr % 256 = 0xff := by omega
      have h3 : ptr / 256 * 256 = high * 256 := by omega
      rw [h1, Nat.or_zero, Nat.shiftLeft_eq, if_pos h2, h3]
    · have h1 : (low + 1) % 256 = low + 1 := by omega
      have h2 : ¬ ptr % 256 = 0xff := by omega
      have h3 : high * 256 + (low + 1) = ptr + 1 := by omega
      rw [h1, lor_byte_eq_add high (low + 1) (by omega), if_neg h2, h3]
  · rfl

/-- SamePage holds exactly when the two addresses have the same
256-byte page, stated arithmetically. -/
theorem SamePage_iff (a b : Nat) : SamePage a b = true ↔ a / 256 = b / 256 := by
  unfold SamePage
  rw [Nat.shiftRight_eq_div_pow, Nat.shiftRight_eq_div_pow]
  norm_num

/-- The branch helper agrees with the spec-side branch contract. -/
theorem branch_eq_branchSpec (address base : Nat) (condition : Bool) (cpu : M6502) :
    M6502.branch address condition base cpu = branchSpec condition address base cpu := by
  unfold M6502.branch branchSpec
  cases condition
  · rfl
  · simp only [if_true]
    by_cases h : cpu.reg.PC / 256 = address / 256
    · rw [if_pos ((SamePage_iff _ _).mpr h), if_pos h.symm]
    · rw [if_neg (fun hh => h ((SamePage_iff _ _).mp hh)), if_neg (fun hh => h hh.symm)]

/-- Claim C8: for each of the eight branch instructions, the cycle
count is the base when the condition is false; when the condition is
true it is base + 1 if the target is on the same 256-byte page as the
post-operand PC and base + 2 otherwise, and PC is set to the target --
stated as agreement with the spec-side branch contract under each
instruction's condition. -/
theorem c8_branch_cycles (cpu : M6502) (address base : Nat) :
    M6502.Bcc address base cpu = branchSpec (cpu.reg.P &&& Status.C == 0) address base cpu ∧
    M6502.Bcs address base cpu = branchSpec (cpu.reg.P &&& Status.C != 0) address base cpu ∧
    M6502.Beq address base cpu = branchSpec (cpu.reg.P &&& Status.Z != 0) address base cpu ∧
    M6502.Bmi address base cpu = branchSpec (cpu.reg.P &&& Status.N != 0) address base cpu ∧
    M6502.Bne address base cpu = branchSpec (cpu.reg.P &&& Status.Z == 0) address base cpu ∧
    M6502.Bpl address base cpu = branchSpec (cpu.reg.P &&& Status.N == 0) address base cpu ∧
    M6502.Bvc address base cpu = branchSpec (cpu.reg.P &&& Status.V == 0) address base cpu ∧
    M6502.Bvs address base cpu = branchSpec (cpu.reg.P &&& Status.V != 0) address base cpu :=
  ⟨branch_eq_branchSpec address base _ cpu, branch_eq_branchSpec address base _ cpu,
   branch_eq_branchSpec address base _ cpu, branch_eq_branchSpec address base _ cpu,
   branch_eq_branchSpec address base _ cpu, branch_eq_branchSpec address base _ cpu,
   branch_eq_branchSpec address base _ cpu, branch_eq_branchSpec address base _ cpu⟩

/-- Claim C9: for every divisor greater than zero, every master tick
count and every target, the Divider's Ticks is the master's ticks
integer-divided by the divisor, and its Await delegates to the master
at target times divisor and returns the master's resulting tick count
divided by the divisor; in particular the returned divided count is at
least the target. -/
theorem c9_divider (clock : Divider) (tick : Nat) (h : 0 < clock.divisor) :
    Divider.Ticks clock = Clock.Ticks clock.master / clock.divisor ∧
    (Divider.Await clock tick).1
        = (Clock.Await clock.master (tick * clock.divisor)).1 / clock.divisor ∧
    (Divider.Await clock tick).2.master = (Clock.Await clock.master (tick * clock.divisor)).2 ∧
    tick ≤ (Divider.Await clock tick).1 := by
  refine ⟨rfl, rfl, rfl, ?_⟩
  unfold Divider.Await Clock.Await
  by_cases hlt : clock.master.ticks < tick * clock.divisor
  · simp only [hlt, if_true, if_pos hlt]
    rw [Nat.mul_div_cancel tick h]
  · simp only [if_neg hlt]
    calc tick = tick * clock.divisor / clock.divisor := (Nat.mul_div_cancel tick h).symm
      _ ≤ clock.master.ticks / clock.divisor := Nat.div_le_div_right (Nat.not_lt.mp hlt)

/-- Divider used by the C9 witness: a master at 100 ticks divided by
12, mirroring the default NTSC CPU divisor. -/
def c9div : Divider := { master := { ticks := 100 }, divisor := 12 }

/-- Witness for claim C9: the theorem applied to the concrete divider
c9div and target 10, the positivity hypothesis discharged by decide. -/
theorem c9_divider_witness :
    Divider.Ticks c9div = Clock.Ticks c9div.master / c9div.divisor ∧
    (Divider.Await c9div 10).1
        = (Clock.Await c9div.master (10 * c9div.divisor)).1 / c9div.divisor ∧
    (Divider.Await c9div 10).2.master = (Clock.Await c9div.master (10 * c9div.divisor)).2 ∧
    10 ≤ (Divider.Await c9div 10).1 :=
  c9_divider c9div 10 (by decide)

/-- Claim C10: when Execute fetches an unmapped opcode it returns the
error with zero cycles and the entire state unchanged -- the very same
registers (PC included) and memory -- and its event trace is exactly
the single opcode fetch: no store and no clock await. -/
theorem c10_badopcode_pure (table : Nat → Option ExecFn) (ticks : Nat) (cpu : M6502)
    (h : table (Memory.Fetch cpu.mem cpu.reg.PC) = none) :
    M6502.Execute table ticks cpu
      = ((0, some (Memory.Fetch cpu.mem cpu.reg.PC)), cpu, [MemEvent.fetchE cpu.reg.PC]) := by
  simp [M6502.Execute, h]

/-- CPU state used by the C10 witness. -/
def c10cpu : M6502 :=
  { reg := { A := 9, X := 8, Y := 7, P := 0xfd, SP := 0x33, PC := 0x1234 }, mem := fun _ => 0xff }

/-- Witness for claim C10: the theorem applied to the concrete state
c10cpu with an empty table, the hypothesis discharged by rfl. -/
theorem c10_badopcode_pure_witness :
    M6502.Execute (fun _ => none) 21 c10cpu
      = ((0, some (Memory.Fetch c10cpu.mem c10cpu.reg.PC)), c10cpu,
          [MemEvent.fetchE c10cpu.reg.PC]) :=
  c10_badopcode_pure (fun _ => none) 21 c10cpu rfl
